import Mathlib

/-
Verification development for the olive-marketing-intelligence repository.

The repository is a Flask marketing-analytics demo: a synthetic data
generator (data-pipeline/generators), a REST backend (backend/app.py),
rule-based-with-ML-fallback prediction services (backend/services),
shared helper functions (shared/utils/helpers.py) and three PyTorch
training scripts (ml-models/trainers).

Conventions of the shallow embedding:
  * Python floats are modelled as exact rationals (ℚ); dates are day
    numbers (Int); Python dicts with numeric values are association
    lists with a `dictGet` mirroring dict.get(key, default).
  * Randomness (numpy / Faker draws) is an oracle `Nat → ℚ` indexed by
    draw position: a fixed seed makes the oracle the same across runs.
    uuid.uuid4() is a separate oracle `Nat → String` NOT controlled by
    the seeds.
  * Exceptions are `Except` values; a Python function body without
    try/except propagates the error monadically, a try/except block
    pattern-matches on it.
-/

namespace Olive

/-- Python dict.get(key, default) over a string-keyed numeric dictionary. -/
def dictGet (d : List (String × ℚ)) (key : String) (dflt : ℚ) : ℚ :=
  match d.find? (fun p => p.1 == key) with
  | some p => p.2
  | none => dflt

/-! ## data-pipeline/generators/golden_events.py -/

/-- The nested `signal` dictionary of a golden event.
`predicted_impact` keeps the numeric entries of the source dict (the one
string-valued entry `optimal_timing` of cross_channel_synergy is a JSON
payload never read by the code under verification and is omitted). -/
structure SignalDef where
  title : Option String
  severity : Option String
  recommended_action : Option String
  predicted_impact : List (String × ℚ)
deriving DecidableEq, Repr

/-- One entry of GOLDEN_EVENTS (a Python dict in the source; optional
keys become `Option` fields, mirroring dict.get). -/
structure GoldenEvent where
  name : String
  date_offset : Int
  type : String
  channel : Option String
  description : String
  effect : List (String × ℚ)
  duration_days : Option Int
  recovery_day : Option Int
  tier1_only : Option Bool
  signal : Option SignalDef
deriving DecidableEq, Repr

/-- GOLDEN_EVENTS from golden_events.py, transcribed entry by entry. -/
def GOLDEN_EVENTS : List GoldenEvent :=
  [ { name := "tiktok_breakthrough"
    , date_offset := 31
    , type := "creative_breakthrough"
    , channel := some "TikTok"
    , description := "New video creative format drives 34% CPI drop"
    , effect := [("cpi_multiplier", 0.66), ("volume_multiplier", 1.73),
                 ("retention_boost", 0.09), ("ctr_boost", 0.015)]
    , duration_days := some 30
    , recovery_day := none
    , tier1_only := none
    , signal := some
        { title := some "TikTok CPI dropped 34% WoW following creative refresh"
        , severity := some "info"
        , recommended_action := some "Shift +15% budget from Meta → TikTok"
        , predicted_impact := [("monthly_savings", 45000),
                               ("install_increase_pct", 18),
                               ("roi_improvement", 0.28)] } }
  , { name := "meta_fatigue"
    , date_offset := 46
    , type := "creative_fatigue"
    , channel := some "Meta"
    , description := "Creative fatigue causes 52% CPI increase"
    , effect := [("cpi_multiplier", 1.52), ("volume_multiplier", 0.64),
                 ("ctr_decline", 0.014)]
    , duration_days := some 15
    , recovery_day := some 61
    , tier1_only := none
    , signal := some
        { title := some "Meta CPI rising 7 consecutive days (+38% vs baseline)"
        , severity := some "warning"
        , recommended_action := some "Pause fatigued creatives, launch new batch"
        , predicted_impact := [("cpi_reduction", 0.38),
                               ("volume_recovery", 1500),
                               ("daily_savings", 4200)] } }
  , { name := "influencer_surge"
    , date_offset := 42
    , type := "viral_moment"
    , channel := some "Organic"
    , description := "Influencer campaign drives 240% organic surge"
    , effect := [("organic_multiplier", 3.4), ("app_store_rank_boost", -33),
                 ("social_mentions_multiplier", 4.5), ("sentiment_boost", 0.15)]
    , duration_days := some 8
    , recovery_day := none
    , tier1_only := none
    , signal := some
        { title := some "Influencer campaign drove 6K incremental organic installs"
        , severity := some "info"
        , recommended_action := some "Retarget organic cohort with paid ads within 48h"
        , predicted_impact := [("ltv_boost_pct", 25),
                               ("cohort_size", 6000),
                               ("estimated_value", 90000)] } }
  , { name := "google_efficiency_drop"
    , date_offset := 68
    , type := "competitor_launch"
    , channel := some "Google"
    , description := "Competitor launch causes 52% CPI spike in Tier-1"
    , effect := [("cpi_multiplier", 1.52), ("volume_multiplier", 0.80)]
    , duration_days := some 14
    , recovery_day := none
    , tier1_only := some true
    , signal := some
        { title := some "Google UAC ROAS dipped 28% in Tier-1 markets"
        , severity := some "warning"
        , recommended_action := some "Pause bottom 15% of ad groups, shift budget to Tier-2"
        , predicted_impact := [("roas_recovery", 0.21),
                               ("weekly_savings", 18000),
                               ("tier2_opportunity", 12000)] } }
  , { name := "budget_pacing_alert"
    , date_offset := 20
    , type := "budget_overrun"
    , channel := some "All"
    , description := "Spend pacing 38% over budget"
    , effect := [("spend_multiplier", 1.40)]
    , duration_days := some 5
    , recovery_day := none
    , tier1_only := none
    , signal := some
        { title := some "Spend pacing 38% over budget - projected $202K overage"
        , severity := some "critical"
        , recommended_action := some "Reduce daily budgets by 25% across all channels"
        , predicted_impact := [("budget_saved", 202000),
                               ("month_end_projection", 495000),
                               ("target_budget", 500000)] } }
  , { name := "cross_channel_synergy"
    , date_offset := 55
    , type := "synergy_detected"
    , channel := some "Multiple"
    , description := "Meta + Influencer synergy detected"
    , effect := [("meta_ltv_boost", 0.18), ("organic_halo_boost", 0.12)]
    , duration_days := some 10
    , recovery_day := none
    , tier1_only := none
    , signal := some
        { title := some "Meta campaigns + influencer activity show 18% LTV synergy"
        , severity := some "info"
        , recommended_action := some "Coordinate Meta campaigns with influencer drops"
        , predicted_impact := [("ltv_improvement", 0.18),
                               ("monthly_value", 32000)] } }
  ]

/-- event.get('duration_days', 1). -/
def durationDays (e : GoldenEvent) : Int :=
  e.duration_days.getD 1

/-- is_event_active from golden_events.py. -/
def is_event_active (e : GoldenEvent) (day_number : Int) : Bool :=
  let start_day := e.date_offset
  let end_day := start_day + durationDays e
  decide (start_day ≤ day_number ∧ day_number < end_day)

/-- get_event_multiplier from golden_events.py.  np.exp is passed in as
an oracle `expFn` (its value is only used by the in-window decay branch,
which no claim constrains numerically). -/
def get_event_multiplier (expFn : ℚ → ℚ) (e : GoldenEvent) (day_number : Int)
    (metric : String) : ℚ :=
  if is_event_active e day_number = false then 1
  else
    let days_since_start : ℚ := ((day_number - e.date_offset : Int) : ℚ)
    let duration : ℚ := ((durationDays e : Int) : ℚ)
    let multiplier := dictGet e.effect metric 1
    if e.type = "viral_moment" ∨ e.type = "influencer_surge" then
      let decay_factor := expFn (-days_since_start / (duration / 3))
      1 + (multiplier - 1) * decay_factor
    else if e.type = "creative_fatigue" then
      let progress := days_since_start / duration
      1 + (multiplier - 1) * progress
    else
      multiplier

/-! ## data-pipeline/generators/complete_data_generator.py : _calc_cpi -/

/-- The slice of a CHANNEL_PROFILES entry that _calc_cpi reads. -/
structure ChannelProfile where
  base_cpi : ℚ
  cpi_variance : ℚ
  weekend_multiplier : ℚ
deriving DecidableEq, Repr

/-- The golden-event loop of _calc_cpi: golden_mult starts at 1.0 and is
multiplied by effect.get('cpi_multiplier', 1.0) for each event whose
channel matches and whose window contains day_num. -/
def goldenMult (events : List GoldenEvent) (channelName : String) (day_num : Int) : ℚ :=
  events.foldl
    (fun golden_mult event =>
      if event.channel = some channelName then
        if event.date_offset ≤ day_num ∧ day_num < event.date_offset + durationDays event then
          golden_mult * dictGet event.effect "cpi_multiplier" 1
        else golden_mult
      else golden_mult)
    1

/-- The factor a single event contributes to golden_mult. -/
def goldenCpiFactor (event : GoldenEvent) (channelName : String) (day_num : Int) : ℚ :=
  if event.channel = some channelName ∧
     event.date_offset ≤ day_num ∧ day_num < event.date_offset + durationDays event then
    dictGet event.effect "cpi_multiplier" 1
  else 1

/-- _calc_cpi from complete_data_generator.py.  `weekday` is
date.weekday() (0 = Monday); `noise` is the np.random.normal draw. -/
def calc_cpi (profile : ChannelProfile) (weekday : Nat) (day_num : Int)
    (channelName : String) (noise : ℚ) : ℚ :=
  let base_cpi := profile.base_cpi
  let weekend_mult := if weekday ≥ 5 then profile.weekend_multiplier else 1
  let golden_mult := goldenMult GOLDEN_EVENTS channelName day_num
  max 0.5 (base_cpi * weekend_mult * golden_mult * noise)

/-! ## shared/data_layer/models.py : rows read by the backend handlers -/

/-- A DailyCampaignPerformance row (the columns the handlers read). -/
structure PerfRow where
  campaign_id : Int
  date : Int
  spend : ℚ
  impressions : Int
  clicks : Int
  installs : Int
  cpi : ℚ
  ctr : ℚ
  cvr : ℚ
  retention_d1 : ℚ
  retention_d7 : ℚ
  revenue_30d : ℚ
deriving DecidableEq, Repr

/-- A DailyOrganicMetric row (the columns the handlers read). -/
structure OrganicRow where
  date : Int
  organic_installs : Int
  app_store_rank : ℚ
  sentiment_score : ℚ
  social_mentions : Int
deriving DecidableEq, Repr

/-- A Signal row. -/
structure SignalRow where
  id : Int
  date_detected : Int
  signal_type : String
  title : String
  description : String
  severity : String
  affected_entity_type : String
  recommended_action : String
  priority_score : ℚ
  confidence : ℚ
  metrics : List (String × String)
  predicted_impact : List (String × ℚ)
  is_dismissed : Bool
  dismissed_at : Option Int
deriving DecidableEq, Repr

/-! ## backend/app.py -/

/-- start_date <= d <= end_date, the date filter of every handler. -/
def inRange (start_date end_date d : Int) : Bool :=
  decide (start_date ≤ d ∧ d ≤ end_date)

/-- SQL SUM over a filtered date range, with the handler's `or 0`
(NULL on an empty set becomes 0, matching the empty-list sum). -/
def sumOver (rows : List PerfRow) (start_date end_date : Int) (f : PerfRow → ℚ) : ℚ :=
  ((rows.filter (fun r => inRange start_date end_date r.date)).map f).sum

/-- SQL AVG with the handler's `or 0`: 0 on an empty set. -/
def avgOrZero (l : List ℚ) : ℚ :=
  if l.length = 0 then 0 else l.sum / (l.length : ℚ)

/-- Floor of a rational as an integer (the denominator is positive, so
Euclidean division of the numerator rounds down). -/
def ratFloor (q : ℚ) : Int :=
  Int.ediv q.num (q.den : Int)

/-- Python int() applied to a rational: truncation toward zero. -/
def pyTrunc (q : ℚ) : Int :=
  Int.tdiv q.num (q.den : Int)

/-- Python round(x) to an integer: nearest, ties to even. -/
def pyRoundInt (q : ℚ) : Int :=
  let f := ratFloor q
  let frac := q - (f : ℚ)
  if frac < 1/2 then f
  else if 1/2 < frac then f + 1
  else if f % 2 = 0 then f else f + 1

/-- Python round(x, 2), on the exact rational value. -/
def pyRound2 (q : ℚ) : ℚ :=
  (pyRoundInt (q * 100) : ℚ) / 100

/-- Python round(x, 1). -/
def pyRound1 (q : ℚ) : ℚ :=
  (pyRoundInt (q * 10) : ℚ) / 10

/-- The JSON payload of GET /api/executive/summary.  The source key
`ltv_cac_ratio` is rendered here as `ltv_cac_mult`. -/
structure ExecSummaryOut where
  total_spend : ℚ
  total_installs : Int
  organic_installs : Int
  blended_cac : ℚ
  roas_30d : ℚ
  ltv_cac_mult : ℚ
  period_days : Int
deriving DecidableEq, Repr

/-- executive_summary from backend/app.py.  `today` is
datetime.now().date() as a day number. -/
def executive_summary (perf : List PerfRow) (org : List OrganicRow)
    (today days : Int) : ExecSummaryOut :=
  let end_date := today
  let start_date := end_date - days
  let total_spend := sumOver perf start_date end_date (fun r => r.spend)
  let total_installs := sumOver perf start_date end_date (fun r => (r.installs : ℚ))
  let blended_cac := if total_installs > 0 then total_spend / total_installs else 0
  let total_revenue := sumOver perf start_date end_date (fun r => r.revenue_30d)
  let roas := if total_spend > 0 then total_revenue / total_spend else 0
  let organic_installs :=
    (((org.filter (fun r => inRange start_date end_date r.date)).map
        (fun r => (r.organic_installs : ℚ))).sum)
  { total_spend := pyRound2 total_spend
  , total_installs := pyTrunc total_installs
  , organic_installs := pyTrunc organic_installs
  , blended_cac := pyRound2 blended_cac
  , roas_30d := pyRound2 roas
  , ltv_cac_mult := pyRound2 (roas * 5)
  , period_days := days }

/-- The JSON payload of GET /api/funnel/summary. -/
structure FunnelOut where
  impressions : Int
  clicks : Int
  installs : Int
  spend : ℚ
  cpm : ℚ
  cpc : ℚ
  cpi : ℚ
  ctr : ℚ
  cvr : ℚ
  retention_d1 : ℚ
  retention_d7 : ℚ
deriving DecidableEq, Repr

/-- funnel_summary from backend/app.py. -/
def funnel_summary (perf : List PerfRow) (today days : Int) : FunnelOut :=
  let end_date := today
  let start_date := end_date - days
  let rows := perf.filter (fun r => inRange start_date end_date r.date)
  let impressions : Int := (rows.map (fun r => r.impressions)).sum
  let clicks : Int := (rows.map (fun r => r.clicks)).sum
  let installs : Int := (rows.map (fun r => r.installs)).sum
  let spend : ℚ := (rows.map (fun r => r.spend)).sum
  let cpm := if impressions > 0 then spend / ((impressions : ℚ) / 1000) else 0
  let cpc := if clicks > 0 then spend / (clicks : ℚ) else 0
  let cpi := if installs > 0 then spend / (installs : ℚ) else 0
  { impressions := impressions
  , clicks := clicks
  , installs := installs
  , spend := pyRound2 spend
  , cpm := pyRound2 cpm
  , cpc := pyRound2 cpc
  , cpi := pyRound2 cpi
  , ctr := pyRound2 (avgOrZero (rows.map (fun r => r.ctr)) * 100)
  , cvr := pyRound2 (avgOrZero (rows.map (fun r => r.cvr)) * 100)
  , retention_d1 := pyRound2 (avgOrZero (rows.map (fun r => r.retention_d1)) * 100)
  , retention_d7 := pyRound2 (avgOrZero (rows.map (fun r => r.retention_d7)) * 100) }

/-- get_signals (GET /api/signals) from backend/app.py: filter on date
window, is_dismissed == False and optional severity, then order by
priority_score descending (modelled by insertion sort, a permutation of
the filtered rows). -/
def get_signals (dbase : List SignalRow) (today days : Int) (severity : String) :
    List SignalRow :=
  let end_date := today
  let start_date := end_date - days
  let q := dbase.filter (fun g =>
    inRange start_date end_date g.date_detected && (g.is_dismissed == false))
  let q := if severity ≠ "all" then q.filter (fun g => g.severity == severity) else q
  q.insertionSort (fun a b => b.priority_score ≤ a.priority_score)

/-- dismiss_signal (POST /api/signals/<id>/dismiss): get_or_404 the row
by primary key (`none` models the 404 abort), set is_dismissed and
dismissed_at, commit. -/
def dismiss_signal (dbase : List SignalRow) (signal_id : Int) (now : Int) :
    Option (List SignalRow) :=
  if dbase.any (fun g => g.id == signal_id) then
    some (dbase.map (fun g =>
      if g.id = signal_id then
        { g with is_dismissed := true, dismissed_at := some now }
      else g))
  else none

/-! ## shared/utils/helpers.py -/

/-- calculate_percentage_change from helpers.py. -/
def calculate_percentage_change (current previous : ℚ) : ℚ :=
  if previous = 0 then 0
  else ((current - previous) / previous) * 100

/-- calculate_z_score from helpers.py. -/
def calculate_z_score (value mean std : ℚ) : ℚ :=
  if std = 0 then 0
  else (value - mean) / std

/-- calculate_retention_rate from helpers.py. -/
def calculate_retention_rate (active_users total_users : ℚ) : ℚ :=
  if total_users = 0 then 0
  else (active_users / total_users) * 100

/-- calculate_roas from helpers.py. -/
def calculate_roas (revenue spend : ℚ) : ℚ :=
  if spend = 0 then 0
  else revenue / spend

/-- calculate_ltv_cac_ratio from helpers.py (name shortened). -/
def calculate_ltv_cac (ltv cac : ℚ) : ℚ :=
  if cac = 0 then 0
  else ltv / cac

/-! ## backend/app.py : exception flow of startup and the route handlers -/

/-- A database exception. -/
structure DbError where
  msg : String
deriving DecidableEq, Repr

/-- A Flask HTTP response (payload serialization is abstracted; the JSON
contents of the data endpoints are modelled by the pure handler
functions above). -/
structure HttpResponse where
  status : Nat
  body : String
deriving DecidableEq, Repr

/-- The Flask app object returned by create_app. -/
structure FlaskApp where
  dbInitialized : Bool
deriving DecidableEq, Repr

/-- create_app from backend/app.py: db.create_all runs inside
try/except, so a failing result is caught and the app is still
returned (an uncaught exception would be an `Except.error` here). -/
def create_app (createAllResult : Except DbError Unit) : Except DbError FlaskApp :=
  match createAllResult with
  | .ok _ => .ok { dbInitialized := true }
  | .error _ => .ok { dbInitialized := false }

/-- A database connection: either serving data or raising on every
query. -/
inductive DbConn
  | connected (perf : List PerfRow) (org : List OrganicRow)
      (signals : List SignalRow) (channelCount : Nat)
  | failing (e : DbError)
deriving DecidableEq, Repr

/-- The API endpoints registered in backend/app.py. -/
inductive Endpoint
  | executiveSummary
  | executiveTrends
  | paidChannels
  | paidCampaigns
  | organicSummary
  | organicTrends
  | funnelSummary
  | funnelTrends
  | signalsRoute
  | dismissRoute
  | scenarioPredict
  | health
deriving DecidableEq, Repr

/-- True for the one handler whose body contains a try/except
(health_check, backend/app.py lines 417-434). -/
def handlerCatches : Endpoint → Bool
  | .health => true
  | _ => false

/-- True for the handlers that issue database queries
(predict_scenario computes from the request body only). -/
def queriesDatabase : Endpoint → Bool
  | .scenarioPredict => false
  | _ => true

/-- Request dispatch with exception semantics, transcribed from the
handler bodies: every data handler runs its queries with no try/except,
so on a failing connection the exception propagates (`Except.error`);
health_check catches it and answers 500; predict_scenario never touches
the database. -/
def runEndpoint (ep : Endpoint) (conn : DbConn) : Except DbError HttpResponse :=
  match conn with
  | .connected _ _ _ _ => .ok { status := 200, body := "data" }
  | .failing e =>
    match ep with
    | .health => .ok { status := 500, body := "unhealthy" }
    | .scenarioPredict => .ok { status := 200, body := "data" }
    | _ => .error e

/-! ## backend/services/ml_service.py -/

/-- An exception raised inside the ML inference path. -/
structure MLError where
  msg : String
deriving DecidableEq, Repr

/-- The user_features dict fields read by the service (absent keys are
`none`, mirroring dict.get defaults). -/
structure UserFeatures where
  retention_d1 : Option ℚ
  retention_d7 : Option ℚ
  session_count_7d : Option ℚ
  session_count_30d : Option ℚ
  is_payer : Option Bool
deriving DecidableEq, Repr

/-- One element of historical_data for campaign forecasting. -/
structure CampaignDay where
  spend : Option ℚ
  installs : Option ℚ
  cpi : Option ℚ
deriving DecidableEq, Repr

/-- Python list[-n:]. -/
def takeLast {α : Type} (n : Nat) (l : List α) : List α :=
  l.drop (l.length - n)

/-- _fallback_ltv_prediction from ml_service.py. -/
def fallback_ltv_prediction (u : UserFeatures) : ℚ :=
  let base_ltv : ℚ := 15
  let retention_mult := (u.retention_d7.getD 0.5) / 0.5
  let payer_mult : ℚ := if u.is_payer.getD false then 2 else 1
  base_ltv * retention_mult * payer_mult

/-- _fallback_campaign_prediction from ml_service.py. -/
def fallback_campaign_prediction (historical_data : List CampaignDay) : List ℚ :=
  if historical_data.isEmpty then List.replicate 7 2.5
  else
    let recent := (takeLast 7 historical_data).map (fun d => d.cpi.getD 2.5)
    let recent_cpi := recent.sum / (recent.length : ℚ)
    (List.range 7).map (fun i : Nat => recent_cpi * (1 + (i : ℚ) * 0.01))

/-- _fallback_churn_prediction from ml_service.py. -/
def fallback_churn_prediction (u : UserFeatures) : ℚ :=
  let session_count := u.session_count_7d.getD 0
  let retention := u.retention_d7.getD 0
  if session_count = 0 then 0.9
  else if retention < 0.3 then 0.7
  else if retention < 0.5 then 0.4
  else 0.2

/-- predict_ltv from ml_service.py.  `models_loaded` is the service
flag; `ltvModel` is `self.models.get('ltv')`, an inference function that
may raise (the torch forward pass is an oracle). -/
def predict_ltv (models_loaded : Bool)
    (ltvModel : Option (UserFeatures → Except MLError ℚ)) (u : UserFeatures) : ℚ :=
  match models_loaded, ltvModel with
  | true, some m =>
    match m u with
    | .ok v => v
    | .error _ => fallback_ltv_prediction u
  | _, _ => fallback_ltv_prediction u

/-- predict_campaign_performance from ml_service.py. -/
def predict_campaign_performance (models_loaded : Bool)
    (campaignModel : Option (List CampaignDay → Except MLError (List ℚ)))
    (historical_data : List CampaignDay) : List ℚ :=
  match models_loaded, campaignModel with
  | true, some m =>
    match m historical_data with
    | .ok v => v
    | .error _ => fallback_campaign_prediction historical_data
  | _, _ => fallback_campaign_prediction historical_data

/-- predict_churn from ml_service.py. -/
def predict_churn (models_loaded : Bool)
    (churnModel : Option (UserFeatures → Except MLError ℚ)) (u : UserFeatures) : ℚ :=
  match models_loaded, churnModel with
  | true, some m =>
    match m u with
    | .ok v => v
    | .error _ => fallback_churn_prediction u
  | _, _ => fallback_churn_prediction u

/-! ## complete_data_generator.py : generate_signals -/

/-- The fallback for event.get('signal', {}). -/
def emptySignalDef : SignalDef :=
  { title := none, severity := none, recommended_action := none, predicted_impact := [] }

/-- The Signal row built for one golden event inside generate_signals.
`idx` is the position of the event in GOLDEN_EVENTS (also used as the
autoincrement primary key of the batch); `priority` and `confidence`
are the two np.random.uniform draws of that iteration. -/
def mkSignalRow (priority confidence : Nat → ℚ) (start_date : Int)
    (idx : Nat) (event : GoldenEvent) : SignalRow :=
  let signal_data := event.signal.getD emptySignalDef
  { id := (idx : Int)
  , date_detected := start_date + event.date_offset
  , signal_type := event.type
  , title := signal_data.title.getD (String.append "Signal: " event.name)
  , description := event.description
  , severity := signal_data.severity.getD "info"
  , affected_entity_type := "channel"
  , recommended_action := signal_data.recommended_action.getD "Review performance"
  , priority_score := priority idx
  , confidence := confidence idx
  , metrics := [("event", event.name)]
  , predicted_impact := signal_data.predicted_impact
  , is_dismissed := false
  , dismissed_at := none }

/-- generate_signals from complete_data_generator.py: one Signal row per
GOLDEN_EVENTS entry, in order. -/
def generate_signals_rows (start_date : Int) (priority confidence : Nat → ℚ) :
    List SignalRow :=
  GOLDEN_EVENTS.enum.map (fun p => mkSignalRow priority confidence start_date p.1 p.2)

/-! ## ml-models/trainers : the shared training loop

ltv_predictor.train_ltv_model, churn_predictor.train_churn_model and
campaign_forecaster.train_campaign_model contain the same epoch loop:

    for epoch in range(epochs):
        ... train, compute val_loss ...
        if val_loss < best_val_loss:
            best_val_loss = val_loss; patience_counter = 0
            if save_path: torch.save(..., save_path)
        else:
            patience_counter += 1
            if patience_counter >= 10: break

The gradient steps only influence the loop through the validation loss,
which is therefore an oracle `v : Nat → ℚ` (epoch number to loss);
`float('inf')` as the initial best is the `none` of an `Option ℚ`. -/

/-- The loop state. -/
structure TrainState where
  best_val_loss : Option ℚ
  patience_counter : Nat
  saved_epochs : List Nat
  epochs_run : Nat
  stopped_early : Bool
deriving DecidableEq, Repr

/-- State before the first epoch. -/
def initTrainState : TrainState :=
  { best_val_loss := none, patience_counter := 0, saved_epochs := []
  , epochs_run := 0, stopped_early := false }

/-- val_loss < best_val_loss, where `none` is float('inf'). -/
def improvedOver (best : Option ℚ) (val_loss : ℚ) : Bool :=
  match best with
  | none => true
  | some b => decide (val_loss < b)

/-- The epoch loop: `n` epochs remain, `e` is the current epoch number.
Checkpointing (torch.save) is recorded by appending the epoch to
saved_epochs when save_path is given. -/
def trainFrom (v : Nat → ℚ) (save : Bool) : Nat → Nat → TrainState → TrainState
  | 0, _, s => s
  | n + 1, e, s =>
    let val_loss := v e
    if improvedOver s.best_val_loss val_loss then
      trainFrom v save n (e + 1)
        { best_val_loss := some val_loss
        , patience_counter := 0
        , saved_epochs := s.saved_epochs ++ (if save then [e] else [])
        , epochs_run := e + 1
        , stopped_early := false }
    else
      let p := s.patience_counter + 1
      if 10 ≤ p then
        { s with patience_counter := p, epochs_run := e + 1, stopped_early := true }
      else
        trainFrom v save n (e + 1)
          { s with patience_counter := p, epochs_run := e + 1 }

/-- The full loop, `for epoch in range(epochs)` with early stopping. -/
def trainLoop (v : Nat → ℚ) (epochs : Nat) (save : Bool) : TrainState :=
  trainFrom v save epochs 0 initTrainState

/-- train_ltv_model (ltv_predictor.py): its epoch loop is trainLoop. -/
def train_ltv_model : (Nat → ℚ) → Nat → Bool → TrainState := trainLoop

/-- train_churn_model (churn_predictor.py): identical epoch loop. -/
def train_churn_model : (Nat → ℚ) → Nat → Bool → TrainState := trainLoop

/-- train_campaign_model (campaign_forecaster.py): identical epoch loop. -/
def train_campaign_model : (Nat → ℚ) → Nat → Bool → TrainState := trainLoop

/-- Specification: epoch e improves on every earlier validation loss
(true at epoch 0, where best is float('inf')). -/
def improvesB (v : Nat → ℚ) (e : Nat) : Bool :=
  (List.range e).all (fun i => decide (v e < v i))

/-- Specification: the number of consecutive non-improving epochs
immediately before epoch e (the value of patience_counter on entering
epoch e, absent early stopping). -/
def patSpec (v : Nat → ℚ) : Nat → Nat
  | 0 => 0
  | e + 1 => if improvesB v e then 0 else patSpec v e + 1

/-- Specification: the minimum validation loss over epochs < e
(`none` for e = 0), the value of best_val_loss on entering epoch e. -/
def minUpTo (v : Nat → ℚ) : Nat → Option ℚ
  | 0 => none
  | e + 1 =>
    match minUpTo v e with
    | none => some (v e)
    | some m => some (min m (v e))

/-! ## complete_data_generator.py : generate_all emission order

For the phase-ordering claim the generator is modelled at the level of
its database session events: each db.session.add / bulk_save_objects is
an `insert` tagged with its phase, db.session.flush keeps rows pending,
db.session.commit makes the session clean.  The per-phase traces below
transcribe the loop structure of generate_channels,
generate_campaigns_and_creatives, generate_daily_performance,
generate_users, generate_sessions, generate_organic_metrics and
generate_signals. -/

/-- The seven generation phases, in source order. -/
inductive Phase
  | channels
  | campaignsCreatives
  | dailyPerformance
  | userInstalls
  | sessions
  | organicMetrics
  | signals
deriving DecidableEq, Repr

/-- A database session event. -/
inductive GenEvent
  | insert (p : Phase)
  | flush
  | commit
deriving DecidableEq, Repr

/-- Pending (uncommitted) insert count after one event. -/
def pendingStep (n : Nat) (ev : GenEvent) : Nat :=
  match ev with
  | .insert _ => n + 1
  | .flush => n
  | .commit => 0

/-- Pending insert count after a trace. -/
def pendingAfter (t : List GenEvent) : Nat :=
  t.foldl pendingStep 0

/-- generate_channels: one add per CHANNEL_PROFILES entry, one commit. -/
def channelsTrace (numChannels : Nat) : List GenEvent :=
  List.replicate numChannels (GenEvent.insert .channels) ++ [.commit]

/-- generate_campaigns_and_creatives: per campaign, three creative adds,
a flush (to obtain creative ids), one campaign add; one commit at the
end of the phase. -/
def campaignsTrace (numChannels campaignsPerChannel : Nat) : List GenEvent :=
  (List.replicate (numChannels * campaignsPerChannel)
    ([GenEvent.insert .campaignsCreatives, .insert .campaignsCreatives,
      .insert .campaignsCreatives, .flush, .insert .campaignsCreatives])).flatten
  ++ [.commit]

/-- generate_daily_performance: all records bulk-saved, one commit. -/
def dailyPerfTrace (numCampaigns days : Nat) : List GenEvent :=
  List.replicate (numCampaigns * days) (GenEvent.insert .dailyPerformance) ++ [.commit]

/-- The batched insert pattern of generate_users and generate_sessions:
rows accumulate in a Python list (`buf`); at 10000 the batch is
bulk-saved and committed; a final non-empty batch is bulk-saved and
committed after the loop. -/
def batchedTrace (p : Phase) : Nat → Nat → List GenEvent
  | 0, buf => if buf = 0 then [] else [.insert p, .commit]
  | n + 1, buf =>
    if buf + 1 ≥ 10000 then
      GenEvent.insert p :: .commit :: batchedTrace p n 0
    else
      batchedTrace p n (buf + 1)

/-- generate_organic_metrics: one record per day, bulk save, commit. -/
def organicTrace (days : Nat) : List GenEvent :=
  List.replicate days (GenEvent.insert .organicMetrics) ++ [.commit]

/-- generate_signals: one row per golden event, bulk save, commit. -/
def signalsTrace : List GenEvent :=
  List.replicate GOLDEN_EVENTS.length (GenEvent.insert .signals) ++ [.commit]

/-- generate_all: the seven phases in source order. -/
def generate_all_trace (numChannels campaignsPerChannel days numUsers numSessions : Nat) :
    List GenEvent :=
  channelsTrace numChannels
  ++ campaignsTrace numChannels campaignsPerChannel
  ++ dailyPerfTrace (numChannels * campaignsPerChannel) days
  ++ batchedTrace .userInstalls numUsers 0
  ++ batchedTrace .sessions numSessions 0
  ++ organicTrace days
  ++ signalsTrace

/-! ## complete_data_generator.py : generate_users / generate_sessions

CompleteDataGenerator.__init__ seeds Faker and numpy with 42, so all
Faker/numpy draws of a run are a single deterministic stream; it is
modelled as an oracle `nr : Nat → ℚ` of unit-interval draws indexed by
position (both runs of the determinism claim use the same `nr`).
uuid.uuid4(), used for user_id and session_id, reads OS entropy that
the seeds do not control; it is a separate oracle `uuids : Nat → String`
that differs between runs.  The profile dictionaries
(USER_SEGMENTS, DEVICE_DISTRIBUTIONS, GEO_DISTRIBUTIONS,
MONETIZATION_PROFILES, CHURN_PROFILES from channel_profiles.py) are
program constants, bundled into `GenEnv` and shared by both runs. -/

/-- np.random.uniform(a, b) from a unit draw. -/
def uniformDraw (a b r : ℚ) : ℚ := a + (b - a) * r

/-- Python int() applied to a nonnegative rational (truncation). -/
def pyIntOf (q : ℚ) : Nat := (pyTrunc q).toNat

/-- The channel_profiles.py constants read per user (per-channel and
per-segment dictionaries flattened to the entries one draw selects). -/
structure GenEnv where
  num_campaigns : Nat
  power_user_p : ℚ
  regular_p : ℚ
  ios_p : ℚ
  us_p : ℚ
  uk_p : ℚ
  ca_p : ℚ
  au_p : ℚ
  paying_rate : List (String × ℚ)
  avg_revenue : List (String × ℚ)
  churn_rate : List (String × ℚ)
deriving DecidableEq, Repr

/-- A UserInstall row (the generated columns; constants inlined as in
generate_users). -/
structure UserRow where
  user_id : String
  campaign_index : Nat
  install_date : Int
  install_source : String
  device_type : String
  country : String
  user_segment : String
  d1_active : Bool
  d7_active : Bool
  d30_active : Bool
  retention_d1 : ℚ
  retention_d7 : ℚ
  retention_d30 : ℚ
  session_count_7d : Nat
  session_count_30d : Nat
  avg_session_duration : ℚ
  is_payer : Bool
  total_revenue : ℚ
  ltv_7d : ℚ
  ltv_30d : ℚ
  ltv_90d : ℚ
  ltv_180d : ℚ
  is_churned : Bool
deriving DecidableEq, Repr

/-- A UserSession row (the generated columns). -/
structure SessionRow where
  user_id : String
  session_id : String
  session_date : Int
  duration_seconds : Nat
  revenue_this_session : ℚ
  session_quality_score : ℚ
deriving DecidableEq, Repr

/-- The body of the per-user loop of generate_users: every field except
user_id is a function of the seeded stream and the constants; user_id
is str(uuid.uuid4()).  `k` is the global user index; draw positions are
k * 16 + j for the j-th numpy draw of the iteration (a positional
rendering of the sequential numpy stream). -/
def mkUserRow (env : GenEnv) (nr : Nat → ℚ) (uuids : Nat → String)
    (k : Nat) (install_date : Int) : UserRow :=
  let d := fun (j : Nat) => nr (k * 16 + j)
  let campaign_index := pyIntOf ((env.num_campaigns : ℚ) * d 0)
  let segment :=
    if d 1 < env.power_user_p then "power_user"
    else if d 1 < env.power_user_p + env.regular_p then "regular"
    else "casual"
  let device := if d 2 < env.ios_p then "iOS" else "Android"
  let country :=
    if d 3 < env.us_p then "US"
    else if d 3 < env.us_p + env.uk_p then "UK"
    else if d 3 < env.us_p + env.uk_p + env.ca_p then "CA"
    else if d 3 < env.us_p + env.uk_p + env.ca_p + env.au_p then "AU"
    else "Other"
  let is_payer := d 4 < dictGet env.paying_rate segment 0
  { user_id := uuids k
  , campaign_index := campaign_index
  , install_date := install_date
  , install_source := "paid"
  , device_type := device
  , country := country
  , user_segment := segment
  , d1_active := true
  , d7_active := d 5 < 0.6
  , d30_active := d 6 < 0.3
  , retention_d1 := 0.8
  , retention_d7 := 0.5
  , retention_d30 := 0.25
  , session_count_7d := pyIntOf (uniformDraw 1 10 (d 7))
  , session_count_30d := pyIntOf (uniformDraw 5 30 (d 8))
  , avg_session_duration := uniformDraw 5 30 (d 9)
  , is_payer := is_payer
  , total_revenue := if is_payer then dictGet env.avg_revenue segment 0 else 0
  , ltv_7d := if is_payer then 2 else 0
  , ltv_30d := if is_payer then 6 else 0
  , ltv_90d := if is_payer then 12 else 0
  , ltv_180d := if is_payer then dictGet env.avg_revenue segment 0 else 0
  , is_churned := d 10 < dictGet env.churn_rate segment 0 }

/-- daily_users = int(users_per_day * np.random.uniform(0.8, 1.2)); the
per-day draw lives in its own index block of the stream. -/
def dailyUserCount (nr : Nat → ℚ) (users_per_day day : Nat) : Nat :=
  pyIntOf ((users_per_day : ℚ) * uniformDraw 0.8 1.2 (nr (1000000 + day)))

/-- The day loop of generate_users: `dleft` days remain, `day` is the
current day number, `base` the global index of the next user. -/
def genUsersAux (env : GenEnv) (nr : Nat → ℚ) (uuids : Nat → String)
    (start_date : Int) (users_per_day : Nat) :
    Nat → Nat → Nat → List UserRow
  | 0, _, _ => []
  | dleft + 1, day, base =>
    let cnt := dailyUserCount nr users_per_day day
    (List.range cnt).map
      (fun i => mkUserRow env nr uuids (base + i) (start_date + (day : Int)))
    ++ genUsersAux env nr uuids start_date users_per_day dleft (day + 1) (base + cnt)

/-- generate_users from complete_data_generator.py:
users_per_day = users_target // days. -/
def generate_users_rows (env : GenEnv) (nr : Nat → ℚ) (uuids : Nat → String)
    (start_date : Int) (days users_target : Nat) : List UserRow :=
  genUsersAux env nr uuids start_date (users_target / days) days 0 0

/-- The body of the per-session loop of generate_sessions: session_id is
str(uuid.uuid4()) (index block disjoint from the user ids); user_id and
is_payer come from the already generated user row; everything else is a
function of the seeded stream. -/
def mkSessionRow (nr : Nat → ℚ) (uuids : Nat → String)
    (k : Nat) (user : UserRow) : SessionRow :=
  let d := fun (j : Nat) => nr (3000000 + k * 8 + j)
  { user_id := user.user_id
  , session_id := uuids (2000000 + k)
  , session_date := user.install_date + (pyIntOf (30 * d 0) : Int)
  , duration_seconds := pyIntOf (uniformDraw 60 1800 (d 1))
  , revenue_this_session :=
      if user.is_payer ∧ d 2 < 0.1 then uniformDraw 0 5 (d 3) else 0
  , session_quality_score := uniformDraw 60 95 (d 4) }

/-- num_sessions = int(np.random.uniform(1, sessions_per_user * 2))
with sessions_per_user = 10. -/
def userSessionCount (nr : Nat → ℚ) (u : Nat) : Nat :=
  pyIntOf (uniformDraw 1 20 (nr (4000000 + u)))

/-- The user loop of generate_sessions: `u` indexes users, `base` is the
global index of the next session. -/
def genSessionsAux (nr : Nat → ℚ) (uuids : Nat → String) :
    List UserRow → Nat → Nat → List SessionRow
  | [], _, _ => []
  | user :: rest, u, base =>
    let cnt := userSessionCount nr u
    (List.range cnt).map (fun i => mkSessionRow nr uuids (base + i) user)
    ++ genSessionsAux nr uuids rest (u + 1) (base + cnt)

/-- generate_sessions from complete_data_generator.py, over the user
rows produced by generate_users. -/
def generate_sessions_rows (nr : Nat → ℚ) (uuids : Nat → String)
    (users : List UserRow) : List SessionRow :=
  genSessionsAux nr uuids users 0 0

/-! ## Helper lemmas -/

lemma pyRound2_zero : pyRound2 0 = 0 := by
  norm_num [pyRound2, pyRoundInt, ratFloor]

lemma listIntCastSum (l : List Int) :
    ((l.map (fun i : Int => (i : ℚ))).sum) = ((l.sum : Int) : ℚ) := by
  induction l with
  | nil => simp
  | cons x rest ih =>
    rw [List.map_cons, List.sum_cons, List.sum_cons, ih]
    push_cast
    ring

lemma pyTrunc_intCast (n : Int) : pyTrunc ((n : Int) : ℚ) = n := by
  simp [pyTrunc, Rat.intCast_num, Rat.intCast_den]

lemma pyTrunc_int_sum (l : List Int) :
    pyTrunc ((l.map (fun i : Int => (i : ℚ))).sum) = l.sum := by
  rw [listIntCastSum l]
  exact pyTrunc_intCast _

/-! ## C8 -/

/-- C8: no derived-ratio computation divides by zero: blended_cac and
roas_30d in executive_summary, cpm, cpc and cpi in funnel_summary, and
calculate_percentage_change, calculate_z_score,
calculate_retention_rate, calculate_roas and calculate_ltv_cac (source
name calculate_ltv_cac_ratio) all return 0 when their denominator is 0,
and each either returns 0 or has a nonzero denominator, so the division
branch is reached only under a nonzero denominator. -/
theorem no_zero_denominator_division :
    (∀ current previous : ℚ, previous = 0 →
      calculate_percentage_change current previous = 0)
    ∧ (∀ current previous : ℚ,
        calculate_percentage_change current previous = 0 ∨ previous ≠ 0)
    ∧ (∀ value mean std : ℚ, std = 0 → calculate_z_score value mean std = 0)
    ∧ (∀ value mean std : ℚ, calculate_z_score value mean std = 0 ∨ std ≠ 0)
    ∧ (∀ active_users total_users : ℚ, total_users = 0 →
        calculate_retention_rate active_users total_users = 0)
    ∧ (∀ active_users total_users : ℚ,
        calculate_retention_rate active_users total_users = 0 ∨ total_users ≠ 0)
    ∧ (∀ revenue spend : ℚ, spend = 0 → calculate_roas revenue spend = 0)
    ∧ (∀ revenue spend : ℚ, calculate_roas revenue spend = 0 ∨ spend ≠ 0)
    ∧ (∀ ltv cac : ℚ, cac = 0 → calculate_ltv_cac ltv cac = 0)
    ∧ (∀ ltv cac : ℚ, calculate_ltv_cac ltv cac = 0 ∨ cac ≠ 0)
    ∧ (∀ (perf : List PerfRow) (today days : Int),
        (((perf.filter (fun r => inRange (today - days) today r.date)).map
            (fun r => r.impressions)).sum = 0 →
          (funnel_summary perf today days).cpm = 0)
        ∧ (((perf.filter (fun r => inRange (today - days) today r.date)).map
              (fun r => r.clicks)).sum = 0 →
            (funnel_summary perf today days).cpc = 0)
        ∧ (((perf.filter (fun r => inRange (today - days) today r.date)).map
              (fun r => r.installs)).sum = 0 →
            (funnel_summary perf today days).cpi = 0))
    ∧ (∀ (perf : List PerfRow) (org : List OrganicRow) (today days : Int),
        (sumOver perf (today - days) today (fun r => (r.installs : ℚ)) = 0 →
          (executive_summary perf org today days).blended_cac = 0)
        ∧ (sumOver perf (today - days) today (fun r => r.spend) = 0 →
            (executive_summary perf org today days).roas_30d = 0)) := by
  refine ⟨?_, ?_, ?_, ?_, ?_, ?_, ?_, ?_, ?_, ?_, ?_, ?_⟩
  · intro c p h; simp [calculate_percentage_change, h]
  · intro c p
    by_cases h : p = 0
    · exact Or.inl (by simp [calculate_percentage_change, h])
    · exact Or.inr h
  · intro v m s h; simp [calculate_z_score, h]
  · intro v m s
    by_cases h : s = 0
    · exact Or.inl (by simp [calculate_z_score, h])
    · exact Or.inr h
  · intro a t h; simp [calculate_retention_rate, h]
  · intro a t
    by_cases h : t = 0
    · exact Or.inl (by simp [calculate_retention_rate, h])
    · exact Or.inr h
  · intro r s h; simp [calculate_roas, h]
  · intro r s
    by_cases h : s = 0
    · exact Or.inl (by simp [calculate_roas, h])
    · exact Or.inr h
  · intro l c h; simp [calculate_ltv_cac, h]
  · intro l c
    by_cases h : c = 0
    · exact Or.inl (by simp [calculate_ltv_cac, h])
    · exact Or.inr h
  · intro perf today days
    refine ⟨?_, ?_, ?_⟩ <;>
      · intro h
        simp only [funnel_summary, h]
        norm_num [pyRound2_zero]
  · intro perf org today days
    constructor
    · intro h
      simp only [executive_summary, h]
      norm_num [pyRound2_zero]
    · intro h
      simp only [executive_summary, h]
      norm_num [pyRound2_zero]

/-- C8 witness: the zero-denominator branches evaluated at concrete
inputs through the theorem. -/
theorem no_zero_denominator_division_witness :
    calculate_percentage_change 5 0 = 0
    ∧ calculate_z_score 3 1 0 = 0
    ∧ calculate_retention_rate 4 0 = 0
    ∧ calculate_roas 7 0 = 0
    ∧ calculate_ltv_cac 9 0 = 0
    ∧ (funnel_summary [] 0 30).cpm = 0
    ∧ (executive_summary [] [] 0 30).blended_cac = 0 :=
  ⟨no_zero_denominator_division.1 5 0 rfl,
   no_zero_denominator_division.2.2.1 3 1 0 rfl,
   no_zero_denominator_division.2.2.2.2.1 4 0 rfl,
   no_zero_denominator_division.2.2.2.2.2.2.1 7 0 rfl,
   no_zero_denominator_division.2.2.2.2.2.2.2.2.1 9 0 rfl,
   (no_zero_denominator_division.2.2.2.2.2.2.2.2.2.2.1 [] 0 30).1 rfl,
   (no_zero_denominator_division.2.2.2.2.2.2.2.2.2.2.2 [] [] 0 30).1 rfl⟩

/-! ## C4 -/

/-- A concrete DailyCampaignPerformance row with spend 0.001, used to
exhibit the rounding of the executive summary payload. -/
def smallSpendRow : PerfRow :=
  { campaign_id := 1, date := 0, spend := 1/1000, impressions := 10
  , clicks := 1, installs := 0, cpi := 0, ctr := 0, cvr := 0
  , retention_d1 := 0, retention_d7 := 0, revenue_30d := 0 }

/-- C4 counterexample: with one row of spend 0.001 dated today, the
total_spend returned by GET /api/executive/summary is round(0.001, 2)
= 0, not the sum 0.001 — the handler rounds every monetary value to two
decimal places before returning it. -/
theorem executive_summary_rounding_counterexample :
    (executive_summary [smallSpendRow] [] 0 30).total_spend
      ≠ sumOver [smallSpendRow] (0 - 30) 0 (fun r => r.spend) := by
  simp only [executive_summary, sumOver, inRange, smallSpendRow]
  norm_num [pyRound2, pyRoundInt, ratFloor]

/-- C4 (amended): GET /api/executive/summary returns total_spend equal
to the sum of spend over DailyCampaignPerformance rows with date in
[today - days, today] rounded to two decimals with Python round (0 when
there are no such rows), total_installs equal to the analogous (exact)
sum of installs, and blended_cac equal to the unrounded spend sum
divided by the installs sum, rounded to two decimals, when the installs
sum is positive, and 0 otherwise. -/
theorem executive_summary_spec :
    ∀ (perf : List PerfRow) (org : List OrganicRow) (today days : Int),
      ((executive_summary perf org today days).total_spend
          = pyRound2 (sumOver perf (today - days) today (fun r => r.spend)))
      ∧ ((executive_summary perf org today days).total_installs
          = ((perf.filter (fun r => inRange (today - days) today r.date)).map
              (fun r => r.installs)).sum)
      ∧ ((perf.filter (fun r => inRange (today - days) today r.date)) = [] →
          (executive_summary perf org today days).total_spend = 0
          ∧ (executive_summary perf org today days).total_installs = 0)
      ∧ (sumOver perf (today - days) today (fun r => (r.installs : ℚ)) = 0 →
          (executive_summary perf org today days).blended_cac = 0)
      ∧ (0 < sumOver perf (today - days) today (fun r => (r.installs : ℚ)) →
          (executive_summary perf org today days).blended_cac
            = pyRound2 (sumOver perf (today - days) today (fun r => r.spend)
                / sumOver perf (today - days) today (fun r => (r.installs : ℚ)))) := by
  intro perf org today days
  refine ⟨rfl, ?_, ?_, ?_, ?_⟩
  · show pyTrunc (sumOver perf (today - days) today (fun r => (r.installs : ℚ))) = _
    have hmap : (perf.filter (fun r => inRange (today - days) today r.date)).map
        (fun r => (r.installs : ℚ))
        = ((perf.filter (fun r => inRange (today - days) today r.date)).map
            (fun r => r.installs)).map (fun i : Int => (i : ℚ)) := by
      rw [List.map_map]
      rfl
    unfold sumOver
    rw [hmap, pyTrunc_int_sum]
  · intro h
    constructor
    · show pyRound2 (sumOver perf (today - days) today (fun r => r.spend)) = 0
      unfold sumOver
      rw [h]
      simpa using pyRound2_zero
    · show pyTrunc (sumOver perf (today - days) today (fun r => (r.installs : ℚ))) = 0
      unfold sumOver
      rw [h]
      simpa using pyTrunc_intCast 0
  · intro h
    show pyRound2 (if sumOver perf (today - days) today (fun r => (r.installs : ℚ)) > 0
        then _ / _ else 0) = 0
    rw [h]
    norm_num [pyRound2_zero]
  · intro h
    show pyRound2 (if sumOver perf (today - days) today (fun r => (r.installs : ℚ)) > 0
        then sumOver perf (today - days) today (fun r => r.spend)
          / sumOver perf (today - days) today (fun r => (r.installs : ℚ)) else 0) = _
    rw [if_pos h]

/-- C4 witness: the amended statement applied to a database with one
row of spend 0.001 placed inside the window (the hypotheses `filter =
[]` and `installs sum = 0` are discharged on the empty database). -/
theorem executive_summary_spec_witness :
    (executive_summary [] [] 0 30).total_spend = 0
    ∧ (executive_summary [] [] 0 30).total_installs = 0
    ∧ (executive_summary [smallSpendRow] [] 0 30).total_spend
        = pyRound2 (sumOver [smallSpendRow] (0 - 30) 0 (fun r => r.spend)) :=
  ⟨((executive_summary_spec [] [] 0 30).2.2.1 rfl).1,
   ((executive_summary_spec [] [] 0 30).2.2.1 rfl).2,
   (executive_summary_spec [smallSpendRow] [] 0 30).1⟩

/-! ## C6 -/

/-- C6: generate_signals creates exactly one Signal row per
GOLDEN_EVENTS entry; the i-th row is built from the i-th event with
date_detected = start_date + date_offset, severity taken from the
signal definition with default 'info', and is_dismissed = False. -/
theorem generate_signals_one_per_event :
    ∀ (start_date : Int) (priority confidence : Nat → ℚ),
      (generate_signals_rows start_date priority confidence).length = GOLDEN_EVENTS.length
      ∧ (∀ (i : Nat) (hi : i < GOLDEN_EVENTS.length)
          (hi' : i < (generate_signals_rows start_date priority confidence).length),
          (generate_signals_rows start_date priority confidence).get ⟨i, hi'⟩
              = mkSignalRow priority confidence start_date i (GOLDEN_EVENTS.get ⟨i, hi⟩)
          ∧ ((generate_signals_rows start_date priority confidence).get ⟨i, hi'⟩).date_detected
              = start_date + (GOLDEN_EVENTS.get ⟨i, hi⟩).date_offset
          ∧ ((generate_signals_rows start_date priority confidence).get ⟨i, hi'⟩).severity
              = (((GOLDEN_EVENTS.get ⟨i, hi⟩).signal.getD emptySignalDef).severity.getD "info")
          ∧ ((generate_signals_rows start_date priority confidence).get ⟨i, hi'⟩).is_dismissed
              = false) := by
  intro start_date priority confidence
  constructor
  · simp [generate_signals_rows, List.enum_length]
  · intro i hi hi'
    have hrow : (generate_signals_rows start_date priority confidence).get ⟨i, hi'⟩
        = mkSignalRow priority confidence start_date i (GOLDEN_EVENTS.get ⟨i, hi⟩) := by
      simp [generate_signals_rows, List.getElem_map, List.getElem_enum]
    refine ⟨hrow, ?_, ?_, ?_⟩ <;> rw [hrow] <;> rfl

/-- C6 witness: the first generated signal row evaluated through the
theorem (index bound hypotheses discharged at i = 0). -/
theorem generate_signals_one_per_event_witness :
    ((generate_signals_rows 0 (fun _ => 80) (fun _ => (9:ℚ)/10)).get
        ⟨0, by simp [generate_signals_rows, List.enum_length, GOLDEN_EVENTS]⟩).is_dismissed
      = false :=
  ((generate_signals_one_per_event 0 (fun _ => 80) (fun _ => (9:ℚ)/10)).2 0
    (by simp [GOLDEN_EVENTS]) _).2.2.2

/-! ## C3 -/

/-- C3: predict_ltv, predict_churn and predict_campaign_performance
always return a prediction (they are total functions into ℚ resp.
List ℚ, never raising): whenever the corresponding model is not loaded
(flag false or model absent) or the ML inference path raises, the
rule-based fallback result is returned; the ML value is used only when
inference succeeds.  The campaign fallback yields a 7-day forecast on
every input, including the empty history. -/
theorem ml_predictions_fall_back :
    (∀ (u : UserFeatures) (m : Option (UserFeatures → Except MLError ℚ)),
      predict_ltv false m u = fallback_ltv_prediction u)
    ∧ (∀ (u : UserFeatures) (loaded : Bool),
        predict_ltv loaded none u = fallback_ltv_prediction u)
    ∧ (∀ (u : UserFeatures) (m : UserFeatures → Except MLError ℚ) (err : MLError),
        m u = Except.error err → predict_ltv true (some m) u = fallback_ltv_prediction u)
    ∧ (∀ (u : UserFeatures) (m : UserFeatures → Except MLError ℚ) (v : ℚ),
        m u = Except.ok v → predict_ltv true (some m) u = v)
    ∧ (∀ (u : UserFeatures) (m : Option (UserFeatures → Except MLError ℚ)),
        predict_churn false m u = fallback_churn_prediction u)
    ∧ (∀ (u : UserFeatures) (loaded : Bool),
        predict_churn loaded none u = fallback_churn_prediction u)
    ∧ (∀ (u : UserFeatures) (m : UserFeatures → Except MLError ℚ) (err : MLError),
        m u = Except.error err → predict_churn true (some m) u = fallback_churn_prediction u)
    ∧ (∀ (u : UserFeatures) (m : UserFeatures → Except MLError ℚ) (v : ℚ),
        m u = Except.ok v → predict_churn true (some m) u = v)
    ∧ (∀ (h : List CampaignDay) (m : Option (List CampaignDay → Except MLError (List ℚ))),
        predict_campaign_performance false m h = fallback_campaign_prediction h)
    ∧ (∀ (h : List CampaignDay) (loaded : Bool),
        predict_campaign_performance loaded none h = fallback_campaign_prediction h)
    ∧ (∀ (h : List CampaignDay) (m : List CampaignDay → Except MLError (List ℚ))
        (err : MLError), m h = Except.error err →
        predict_campaign_performance true (some m) h = fallback_campaign_prediction h)
    ∧ (∀ (h : List CampaignDay) (m : List CampaignDay → Except MLError (List ℚ))
        (v : List ℚ), m h = Except.ok v →
        predict_campaign_performance true (some m) h = v)
    ∧ (∀ (h : List CampaignDay), (fallback_campaign_prediction h).length = 7) := by
  refine ⟨?_, ?_, ?_, ?_, ?_, ?_, ?_, ?_, ?_, ?_, ?_, ?_, ?_⟩
  · intro u m; cases m <;> rfl
  · intro u loaded; cases loaded <;> rfl
  · intro u m err hm; simp [predict_ltv, hm]
  · intro u m v hm; simp [predict_ltv, hm]
  · intro u m; cases m <;> rfl
  · intro u loaded; cases loaded <;> rfl
  · intro u m err hm; simp [predict_churn, hm]
  · intro u m v hm; simp [predict_churn, hm]
  · intro h m; cases m <;> rfl
  · intro h loaded; cases loaded <;> rfl
  · intro h m err hm; simp [predict_campaign_performance, hm]
  · intro h m v hm; simp [predict_campaign_performance, hm]
  · intro h
    unfold fallback_campaign_prediction
    by_cases he : h.isEmpty
    · rw [if_pos he]
      exact List.length_replicate 7 _
    · rw [if_neg he, List.length_map, List.length_range]

/-- C3 witness: a raising model falls back, evaluated at a concrete
user through the theorem. -/
theorem ml_predictions_fall_back_witness :
    predict_ltv true
        (some (fun _ => Except.error { msg := "inference failed" }))
        { retention_d1 := none, retention_d7 := none, session_count_7d := none
        , session_count_30d := none, is_payer := none }
      = fallback_ltv_prediction
        { retention_d1 := none, retention_d7 := none, session_count_7d := none
        , session_count_30d := none, is_payer := none } :=
  ml_predictions_fall_back.2.2.1
    { retention_d1 := none, retention_d7 := none, session_count_7d := none
    , session_count_30d := none, is_payer := none }
    (fun _ => Except.error { msg := "inference failed" })
    { msg := "inference failed" } rfl

/-! ## C1 -/

/-- C1 counterexample: health_check also handles exceptions — on a
failing database connection GET /api/health returns a 500 response
instead of propagating the exception, so it is not the case that every
API endpoint propagates database exceptions uncaught. -/
theorem health_endpoint_catches_counterexample :
    runEndpoint Endpoint.health (DbConn.failing { msg := "db down" })
        = Except.ok { status := 500, body := "unhealthy" }
    ∧ runEndpoint Endpoint.health (DbConn.failing { msg := "db down" })
        ≠ Except.error { msg := "db down" } := by
  constructor
  · rfl
  · intro h
    simp [runEndpoint] at h

/-- C1 (amended): the try/except around db.create_all in create_app is
one of exactly two exception handlers: create_app catches any
db.create_all failure and still returns the Flask app, every
database-querying route handler except health_check propagates a
database exception uncaught, and health_check catches it and answers
with a 500 response. -/
theorem startup_catch_and_handler_propagation :
    ∀ (e : DbError),
      (∀ r : Except DbError Unit, ∃ a, create_app r = Except.ok a)
      ∧ create_app (Except.error e) = Except.ok { dbInitialized := false }
      ∧ (∀ ep : Endpoint, ep ≠ Endpoint.health → queriesDatabase ep = true →
          runEndpoint ep (DbConn.failing e) = Except.error e)
      ∧ runEndpoint Endpoint.health (DbConn.failing e)
          = Except.ok { status := 500, body := "unhealthy" } := by
  intro e
  refine ⟨?_, rfl, ?_, rfl⟩
  · intro r
    cases r with
    | ok _ => exact ⟨{ dbInitialized := true }, rfl⟩
    | error _ => exact ⟨{ dbInitialized := false }, rfl⟩
  · intro ep hne hq
    cases ep <;> first
      | rfl
      | exact absurd rfl hne
      | exact absurd hq (by simp [queriesDatabase])

/-- C1 witness: the amended statement at a concrete error and the
executive-summary endpoint (hypotheses discharged concretely). -/
theorem startup_catch_and_handler_propagation_witness :
    runEndpoint Endpoint.executiveSummary (DbConn.failing { msg := "db down" })
      = Except.error { msg := "db down" } :=
  (startup_catch_and_handler_propagation { msg := "db down" }).2.2.1
    Endpoint.executiveSummary (by simp) rfl

/-! ## C2 -/

lemma goldenMult_eq_prod (events : List GoldenEvent) (ch : String) (day : Int) :
    goldenMult events ch day
      = (events.map (fun e => goldenCpiFactor e ch day)).prod := by
  suffices h : ∀ a : ℚ,
      events.foldl
        (fun golden_mult event =>
          if event.channel = some ch then
            if event.date_offset ≤ day ∧ day < event.date_offset + durationDays event then
              golden_mult * dictGet event.effect "cpi_multiplier" 1
            else golden_mult
          else golden_mult)
        a
      = a * (events.map (fun e => goldenCpiFactor e ch day)).prod by
    simpa [goldenMult] using h 1
  induction events with
  | nil => intro a; simp
  | cons e rest ih =>
    intro a
    simp only [List.foldl_cons, List.map_cons, List.prod_cons]
    rw [ih]
    unfold goldenCpiFactor
    by_cases h1 : e.channel = some ch
    · by_cases h2 : e.date_offset ≤ day ∧ day < e.date_offset + durationDays e
      · rw [if_pos h1, if_pos h2, if_pos ⟨h1, h2.1, h2.2⟩]
        ring
      · rw [if_pos h1, if_neg h2, if_neg (fun hc => h2 ⟨hc.2.1, hc.2.2⟩)]
        ring
    · rw [if_neg h1, if_neg (fun hc => h1 hc.1)]
      ring

/-- C2: _calc_cpi multiplies the CPI by a golden event's cpi_multiplier
exactly when the event's channel equals the campaign's channel and
date_offset <= day_num < date_offset + duration_days: the golden factor
of calc_cpi is the product over GOLDEN_EVENTS of per-event factors, the
per-event factor is the event's effect cpi_multiplier (default 1.0)
under that condition and 1.0 otherwise, and get_event_multiplier
returns 1.0 for every day outside the active window. -/
theorem golden_event_window_exact :
    (∀ (profile : ChannelProfile) (weekday : Nat) (day_num : Int)
        (ch : String) (noise : ℚ),
      calc_cpi profile weekday day_num ch noise
        = max 0.5 (profile.base_cpi
            * (if weekday ≥ 5 then profile.weekend_multiplier else 1)
            * (GOLDEN_EVENTS.map (fun e => goldenCpiFactor e ch day_num)).prod
            * noise))
    ∧ (∀ (e : GoldenEvent) (ch : String) (day_num : Int),
        goldenCpiFactor e ch day_num
          = if e.channel = some ch
               ∧ e.date_offset ≤ day_num ∧ day_num < e.date_offset + durationDays e
            then dictGet e.effect "cpi_multiplier" 1
            else 1)
    ∧ (∀ (expFn : ℚ → ℚ) (e : GoldenEvent) (day_number : Int) (metric : String),
        is_event_active e day_number = false →
        get_event_multiplier expFn e day_number metric = 1) := by
  refine ⟨?_, ?_, ?_⟩
  · intro profile weekday day_num ch noise
    unfold calc_cpi
    rw [goldenMult_eq_prod]
  · intro e ch day_num
    rfl
  · intro expFn e day_number metric h
    unfold get_event_multiplier
    rw [h]
    simp

/-- C2 witness: outside its window (day 5, before day_offset 31), the
tiktok_breakthrough event contributes multiplier 1.0, through the
theorem with the window hypothesis discharged by evaluation. -/
theorem golden_event_window_exact_witness :
    get_event_multiplier (fun q => q)
        (GOLDEN_EVENTS.get ⟨0, by simp [GOLDEN_EVENTS]⟩) 5 "cpi_multiplier" = 1 :=
  golden_event_window_exact.2.2 (fun q => q)
    (GOLDEN_EVENTS.get ⟨0, by simp [GOLDEN_EVENTS]⟩) 5 "cpi_multiplier"
    (by simp [GOLDEN_EVENTS, is_event_active, durationDays])

/-! ## C7 -/

/-- A trace whose final event is a commit. -/
def endsCommit (t : List GenEvent) : Prop :=
  t.getLast? = some GenEvent.commit

lemma foldl_pending_of_endsCommit :
    ∀ (t : List GenEvent), endsCommit t → ∀ s, t.foldl pendingStep s = 0
  | [], h => by simp [endsCommit] at h
  | [x], h => by
    intro s
    have hx : x = GenEvent.commit := by
      simpa [endsCommit] using h
    simp [hx, pendingStep]
  | x :: y :: rest, h => by
    intro s
    have h2 : endsCommit (y :: rest) := by
      simpa [endsCommit, List.getLast?_cons_cons] using h
    rw [List.foldl_cons]
    exact foldl_pending_of_endsCommit (y :: rest) h2 _

lemma endsCommit_concat (l : List GenEvent) : endsCommit (l ++ [GenEvent.commit]) := by
  simp [endsCommit, List.getLast?_concat]

lemma pendingAfter_append_endsCommit (a b : List GenEvent) (h : endsCommit b) :
    pendingAfter (a ++ b) = 0 := by
  unfold pendingAfter
  rw [List.foldl_append]
  exact foldl_pending_of_endsCommit b h _

lemma batchedTrace_cases (p : Phase) :
    ∀ (n buf : Nat), batchedTrace p n buf = [] ∨ endsCommit (batchedTrace p n buf) := by
  intro n
  induction n with
  | zero =>
    intro buf
    by_cases hb : buf = 0
    · exact Or.inl (by simp [batchedTrace, hb])
    · refine Or.inr ?_
      simp only [batchedTrace, if_neg hb]
      simp [endsCommit]
  | succ m ih =>
    intro buf
    simp only [batchedTrace]
    by_cases hc : buf + 1 ≥ 10000
    · rw [if_pos hc]
      refine Or.inr ?_
      rcases ih 0 with he | he
      · rw [he]
        simp [endsCommit]
      · rcases hr : batchedTrace p m 0 with _ | ⟨z, zs⟩
        · simp [endsCommit]
        · rw [hr] at he
          simpa [endsCommit, List.getLast?_cons_cons] using he
    · rw [if_neg hc]
      exact ih (buf + 1)

lemma batched_foldl_zero (p : Phase) (n buf : Nat) :
    (batchedTrace p n buf).foldl pendingStep 0 = 0 := by
  rcases batchedTrace_cases p n buf with h | h
  · simp [h]
  · exact foldl_pending_of_endsCommit _ h 0

lemma pendingAfter_append_batched (a : List GenEvent) (p : Phase) (n buf : Nat)
    (h : pendingAfter a = 0) : pendingAfter (a ++ batchedTrace p n buf) = 0 := by
  unfold pendingAfter at h ⊢
  rw [List.foldl_append, h]
  exact batched_foldl_zero p n buf

/-- C7: generate_all runs its phases in the fixed order channels,
campaigns and creatives, daily performance, user installs, sessions,
organic metrics, signals, and each phase's rows are committed before
the next phase begins: after every phase boundary the database session
has zero pending (uncommitted) inserts. -/
theorem generate_all_phase_order :
    ∀ (nc cpc days nu ns : Nat),
      generate_all_trace nc cpc days nu ns
        = channelsTrace nc
          ++ campaignsTrace nc cpc
          ++ dailyPerfTrace (nc * cpc) days
          ++ batchedTrace .userInstalls nu 0
          ++ batchedTrace .sessions ns 0
          ++ organicTrace days
          ++ signalsTrace
      ∧ pendingAfter (channelsTrace nc) = 0
      ∧ pendingAfter ((channelsTrace nc) ++ campaignsTrace nc cpc) = 0
      ∧ pendingAfter (((channelsTrace nc) ++ campaignsTrace nc cpc)
          ++ dailyPerfTrace (nc * cpc) days) = 0
      ∧ pendingAfter ((((channelsTrace nc) ++ campaignsTrace nc cpc)
          ++ dailyPerfTrace (nc * cpc) days)
          ++ batchedTrace .userInstalls nu 0) = 0
      ∧ pendingAfter (((((channelsTrace nc) ++ campaignsTrace nc cpc)
          ++ dailyPerfTrace (nc * cpc) days)
          ++ batchedTrace .userInstalls nu 0)
          ++ batchedTrace .sessions ns 0) = 0
      ∧ pendingAfter ((((((channelsTrace nc) ++ campaignsTrace nc cpc)
          ++ dailyPerfTrace (nc * cpc) days)
          ++ batchedTrace .userInstalls nu 0)
          ++ batchedTrace .sessions ns 0)
          ++ organicTrace days) = 0
      ∧ pendingAfter (generate_all_trace nc cpc days nu ns) = 0 := by
  intro nc cpc days nu ns
  have h1 : pendingAfter (channelsTrace nc) = 0 := by
    have := pendingAfter_append_endsCommit (List.replicate nc (GenEvent.insert .channels))
      [GenEvent.commit] (by simp [endsCommit])
    simpa [channelsTrace] using this
  have h2 : pendingAfter ((channelsTrace nc) ++ campaignsTrace nc cpc) = 0 :=
    pendingAfter_append_endsCommit _ _ (endsCommit_concat _)
  have h3 : pendingAfter (((channelsTrace nc) ++ campaignsTrace nc cpc)
      ++ dailyPerfTrace (nc * cpc) days) = 0 :=
    pendingAfter_append_endsCommit _ _ (endsCommit_concat _)
  have h4 : pendingAfter ((((channelsTrace nc) ++ campaignsTrace nc cpc)
      ++ dailyPerfTrace (nc * cpc) days) ++ batchedTrace .userInstalls nu 0) = 0 :=
    pendingAfter_append_batched _ _ _ _ h3
  have h5 : pendingAfter (((((channelsTrace nc) ++ campaignsTrace nc cpc)
      ++ dailyPerfTrace (nc * cpc) days) ++ batchedTrace .userInstalls nu 0)
      ++ batchedTrace .sessions ns 0) = 0 :=
    pendingAfter_append_batched _ _ _ _ h4
  have h6 : pendingAfter ((((((channelsTrace nc) ++ campaignsTrace nc cpc)
      ++ dailyPerfTrace (nc * cpc) days) ++ batchedTrace .userInstalls nu 0)
      ++ batchedTrace .sessions ns 0) ++ organicTrace days) = 0 :=
    pendingAfter_append_endsCommit _ _ (endsCommit_concat _)
  have h7 : pendingAfter (generate_all_trace nc cpc days nu ns) = 0 := by
    unfold generate_all_trace
    exact pendingAfter_append_endsCommit _ _ (endsCommit_concat _)
  exact ⟨rfl, h1, h2, h3, h4, h5, h6, h7⟩

/-! ## C9 -/

/-- C9: for an existing signal id, POST /api/signals/<id>/dismiss only
sets is_dismissed and dismissed_at on rows carrying that id, leaves
every other field and every other row unchanged, and afterwards
GET /api/signals never returns that signal, because its query filters
on is_dismissed == False. -/
theorem dismiss_signal_frame :
    ∀ (dbase : List SignalRow) (sid now : Int) (dbase2 : List SignalRow),
      dismiss_signal dbase sid now = some dbase2 →
      dbase2.length = dbase.length
      ∧ (∀ (i : Nat) (hi : i < dbase.length) (hi2 : i < dbase2.length),
          ((dbase.get ⟨i, hi⟩).id ≠ sid → dbase2.get ⟨i, hi2⟩ = dbase.get ⟨i, hi⟩)
          ∧ ((dbase.get ⟨i, hi⟩).id = sid →
              dbase2.get ⟨i, hi2⟩
                = { dbase.get ⟨i, hi⟩ with
                    is_dismissed := true, dismissed_at := some now }))
      ∧ (∀ (today days : Int) (severity : String) (g : SignalRow),
          g ∈ get_signals dbase2 today days severity → g.id ≠ sid) := by
  intro dbase sid now dbase2 h
  have hmap : dbase2 = dbase.map (fun g =>
      if g.id = sid then { g with is_dismissed := true, dismissed_at := some now }
      else g) := by
    unfold dismiss_signal at h
    by_cases hc : dbase.any (fun g => g.id == sid)
    · rw [if_pos hc] at h
      exact (Option.some.inj h).symm
    · rw [if_neg hc] at h
      simp at h
  subst hmap
  refine ⟨List.length_map _ _, ?_, ?_⟩
  · intro i hi hi2
    have hget : (dbase.map (fun g =>
        if g.id = sid then { g with is_dismissed := true, dismissed_at := some now }
        else g)).get ⟨i, hi2⟩
        = if (dbase.get ⟨i, hi⟩).id = sid then
            { dbase.get ⟨i, hi⟩ with is_dismissed := true, dismissed_at := some now }
          else dbase.get ⟨i, hi⟩ := by
      simp [List.getElem_map]
    constructor
    · intro hne
      rw [hget, if_neg hne]
    · intro heq
      rw [hget, if_pos heq]
  · intro today days severity g hg
    simp only [get_signals] at hg
    have hg2 := (List.perm_insertionSort _ _).mem_iff.mp hg
    have hg3 : g ∈ (dbase.map (fun g =>
        if g.id = sid then { g with is_dismissed := true, dismissed_at := some now }
        else g)).filter (fun s =>
          inRange (today - days) today s.date_detected && (s.is_dismissed == false)) := by
      by_cases hs : severity ≠ "all"
      · rw [if_pos hs] at hg2
        exact List.mem_of_mem_filter hg2
      · rw [if_neg hs] at hg2
        exact hg2
    have hdis : g.is_dismissed = false := by
      have hp := (List.mem_filter.mp hg3).2
      simp only [Bool.and_eq_true, beq_iff_eq] at hp
      exact hp.2
    obtain ⟨x, hx, hfx⟩ := List.mem_map.mp (List.mem_of_mem_filter hg3)
    intro hgid
    by_cases hxid : x.id = sid
    · rw [if_pos hxid] at hfx
      rw [← hfx] at hdis
      simp at hdis
    · rw [if_neg hxid] at hfx
      rw [← hfx] at hgid
      exact hxid hgid

/-- A concrete undismissed signal row. -/
def exSignal : SignalRow :=
  { id := 1, date_detected := 0, signal_type := "creative_breakthrough"
  , title := "TikTok CPI dropped", description := "demo"
  , severity := "info", affected_entity_type := "channel"
  , recommended_action := "review", priority_score := 80, confidence := 0.9
  , metrics := [], predicted_impact := [], is_dismissed := false
  , dismissed_at := none }

/-- C9 witness: dismissing the one existing signal (id 1) through the
theorem, with the success hypothesis discharged by evaluation. -/
theorem dismiss_signal_frame_witness :
    dismiss_signal [exSignal] 1 5
        = some [{ exSignal with is_dismissed := true, dismissed_at := some 5 }]
    ∧ [{ exSignal with is_dismissed := true, dismissed_at := some 5 }].length
        = [exSignal].length :=
  ⟨rfl, (dismiss_signal_frame [exSignal] 1 5 _ rfl).1⟩

/-! ## C5 -/

lemma improvesB_iff (v : Nat → ℚ) (e : Nat) :
    improvesB v e = true ↔ ∀ i < e, v e < v i := by
  simp [improvesB, List.all_eq_true, List.mem_range]

lemma improvesB_zero (v : Nat → ℚ) : improvesB v 0 = true := by
  simp [improvesB]

lemma minUpTo_eq_none_iff (v : Nat → ℚ) : ∀ e, minUpTo v e = none ↔ e = 0
  | 0 => by simp [minUpTo]
  | e + 1 => by
    simp only [minUpTo]
    cases minUpTo v e <;> simp

lemma improvedOver_minUpTo_iff (v : Nat → ℚ) (x : ℚ) :
    ∀ e, improvedOver (minUpTo v e) x = true ↔ ∀ i < e, x < v i := by
  intro e
  induction e with
  | zero => simp [minUpTo, improvedOver]
  | succ m ih =>
    cases hm : minUpTo v m with
    | none =>
      have hm0 : m = 0 := (minUpTo_eq_none_iff v m).mp hm
      subst hm0
      have hgoal : minUpTo v 1 = some (v 0) := by simp [minUpTo]
      rw [hgoal]
      simp only [improvedOver, decide_eq_true_eq]
      constructor
      · intro h i hi
        have hi0 : i = 0 := Nat.lt_one_iff.mp hi
        rw [hi0]
        exact h
      · intro h
        exact h 0 Nat.one_pos
    | some b =>
      rw [hm] at ih
      simp only [improvedOver, decide_eq_true_eq] at ih
      have hgoal : minUpTo v (m + 1) = some (min b (v m)) := by
        simp [minUpTo, hm]
      rw [hgoal]
      simp only [improvedOver, decide_eq_true_eq]
      constructor
      · intro hlt i hi
        have hsplit := lt_min_iff.mp hlt
        rcases Nat.lt_succ_iff_lt_or_eq.mp hi with h2 | h2
        · exact ih.mp hsplit.1 i h2
        · subst h2
          exact hsplit.2
      · intro hall
        exact lt_min_iff.mpr
          ⟨ih.mpr (fun i hi => hall i (Nat.lt_succ_of_lt hi)),
           hall m (Nat.lt_succ_self m)⟩

lemma improvedOver_minUpTo (v : Nat → ℚ) (e : Nat) :
    improvedOver (minUpTo v e) (v e) = improvesB v e := by
  rw [Bool.eq_iff_iff]
  exact (improvedOver_minUpTo_iff v (v e) e).trans (improvesB_iff v e).symm

lemma minUpTo_succ_improve (v : Nat → ℚ) (e : Nat) (h : improvesB v e = true) :
    minUpTo v (e + 1) = some (v e) := by
  cases hm : minUpTo v e with
  | none => simp [minUpTo, hm]
  | some b =>
    have hio : improvedOver (some b) (v e) = true := by
      have h2 := improvedOver_minUpTo v e
      rw [hm, h] at h2
      exact h2
    have hvb : v e < b := by simpa [improvedOver] using hio
    simp [minUpTo, hm, min_eq_right (le_of_lt hvb)]

lemma minUpTo_succ_noimprove (v : Nat → ℚ) (e : Nat) (h : improvesB v e = false) :
    minUpTo v (e + 1) = minUpTo v e := by
  cases hm : minUpTo v e with
  | none =>
    exfalso
    have he : e = 0 := (minUpTo_eq_none_iff v e).mp hm
    rw [he, improvesB_zero] at h
    cases h
  | some b =>
    have hio : improvedOver (some b) (v e) = false := by
      have h2 := improvedOver_minUpTo v e
      rw [hm, h] at h2
      exact h2
    have hbv : ¬ (v e < b) := by simpa [improvedOver] using hio
    simp [minUpTo, hm, min_eq_left (le_of_not_lt hbv)]

lemma patSpec_succ_improve (v : Nat → ℚ) (e : Nat) (h : improvesB v e = true) :
    patSpec v (e + 1) = 0 := by
  simp [patSpec, h]

lemma patSpec_succ_noimprove (v : Nat → ℚ) (e : Nat) (h : improvesB v e = false) :
    patSpec v (e + 1) = patSpec v e + 1 := by
  simp [patSpec, h]

lemma trainFrom_invariant (v : Nat → ℚ) (save : Bool) :
    ∀ (n e : Nat) (s : TrainState),
      s.epochs_run = e →
      s.stopped_early = false →
      s.best_val_loss = minUpTo v e →
      s.patience_counter = patSpec v e →
      (∀ k, k ≤ e → patSpec v k < 10) →
      (∀ x ∈ s.saved_epochs, x < e ∧ improvesB v x = true) →
      (save = false → s.saved_epochs = []) →
      ((trainFrom v save n e s).epochs_run ≤ e + n
       ∧ e ≤ (trainFrom v save n e s).epochs_run
       ∧ (∀ x ∈ (trainFrom v save n e s).saved_epochs,
            x < (trainFrom v save n e s).epochs_run ∧ improvesB v x = true)
       ∧ (save = false → (trainFrom v save n e s).saved_epochs = [])
       ∧ (∀ k, k ≤ (trainFrom v save n e s).epochs_run →
            patSpec v k = 10 → k = (trainFrom v save n e s).epochs_run)
       ∧ ((trainFrom v save n e s).stopped_early = true →
            patSpec v ((trainFrom v save n e s).epochs_run) = 10)
       ∧ ((trainFrom v save n e s).stopped_early = false →
            ∀ k, k ≤ (trainFrom v save n e s).epochs_run → patSpec v k < 10)) := by
  intro n
  induction n with
  | zero =>
    intro e s hrun hstop hbest hpat hlt hsaves hnil
    simp only [trainFrom]
    refine ⟨le_of_eq hrun, le_of_eq hrun.symm, ?_, hnil, ?_, ?_, ?_⟩
    · intro x hx
      exact ⟨hrun ▸ (hsaves x hx).1, (hsaves x hx).2⟩
    · intro k hk h10
      exact absurd (h10 ▸ hlt k (hrun ▸ hk)) (lt_irrefl 10)
    · intro hst
      rw [hstop] at hst
      cases hst
    · intro _ k hk
      exact hlt k (hrun ▸ hk)
  | succ m ih =>
    intro e s hrun hstop hbest hpat hlt hsaves hnil
    have hcond : improvedOver s.best_val_loss (v e) = improvesB v e := by
      rw [hbest]
      exact improvedOver_minUpTo v e
    by_cases himp : improvesB v e = true
    · have hstep : trainFrom v save (m + 1) e s
          = trainFrom v save m (e + 1)
            { best_val_loss := some (v e), patience_counter := 0
            , saved_epochs := s.saved_epochs ++ (if save then [e] else [])
            , epochs_run := e + 1, stopped_early := false } := by
        simp only [trainFrom, hcond, himp, if_pos]
      rw [hstep]
      have hres := ih (e + 1)
        { best_val_loss := some (v e), patience_counter := 0
        , saved_epochs := s.saved_epochs ++ (if save then [e] else [])
        , epochs_run := e + 1, stopped_early := false }
        rfl rfl
        ((minUpTo_succ_improve v e himp).symm)
        ((patSpec_succ_improve v e himp).symm)
        (by
          intro k hk
          by_cases hke : k ≤ e
          · exact hlt k hke
          · have : k = e + 1 := by omega
            rw [this, patSpec_succ_improve v e himp]
            omega)
        (by
          intro x hx
          rcases List.mem_append.mp hx with hin | hin
          · exact ⟨Nat.lt_succ_of_lt (hsaves x hin).1, (hsaves x hin).2⟩
          · cases hsv : save with
            | true =>
              rw [hsv] at hin
              simp at hin
              refine ⟨by omega, ?_⟩
              rw [hin]
              exact himp
            | false =>
              rw [hsv] at hin
              simp at hin)
        (by
          intro hsv
          rw [hnil hsv, hsv]
          simp)
      refine ⟨by omega, by omega, hres.2.2.1, hres.2.2.2.1, hres.2.2.2.2.1,
        hres.2.2.2.2.2.1, hres.2.2.2.2.2.2⟩
    · have himpf : improvesB v e = false := Bool.eq_false_iff.mpr himp
      have hpat1 : patSpec v (e + 1) = s.patience_counter + 1 := by
        rw [patSpec_succ_noimprove v e himpf, hpat]
      by_cases hp : 10 ≤ s.patience_counter + 1
      · have hstep : trainFrom v save (m + 1) e s
            = { s with patience_counter := s.patience_counter + 1, epochs_run := e + 1, stopped_early := true } := by
          simp only [trainFrom, hcond, himpf]
          rw [if_neg (by simp), if_pos hp]
        rw [hstep]
        have hpe : patSpec v e < 10 := hlt e (le_refl e)
        have hp10 : patSpec v (e + 1) = 10 := by
          rw [hpat1]
          omega
        refine ⟨by show e + 1 ≤ e + (m + 1); omega, by show e ≤ e + 1; omega,
          ?_, ?_, ?_, ?_, ?_⟩
        · intro x hx
          simp only at hx
          exact ⟨Nat.lt_succ_of_lt (hsaves x hx).1, (hsaves x hx).2⟩
        · intro hsv
          exact hnil hsv
        · intro k hk h10
          simp only at hk ⊢
          by_cases hke : k ≤ e
          · exact absurd (h10 ▸ hlt k hke) (lt_irrefl 10)
          · omega
        · intro _
          simpa using hp10
        · intro hst
          simp at hst
      · have hstep : trainFrom v save (m + 1) e s
            = trainFrom v save m (e + 1)
              { s with patience_counter := s.patience_counter + 1, epochs_run := e + 1 } := by
          simp only [trainFrom, hcond, himpf]
          rw [if_neg (by simp), if_neg hp]
        rw [hstep]
        have hres := ih (e + 1)
          { s with patience_counter := s.patience_counter + 1, epochs_run := e + 1 }
          rfl (by simpa using hstop)
          (by
            simp only
            rw [hbest, minUpTo_succ_noimprove v e himpf])
          (by simpa using hpat1.symm)
          (by
            intro k hk
            by_cases hke : k ≤ e
            · exact hlt k hke
            · have : k = e + 1 := by omega
              rw [this, hpat1]
              omega)
          (by
            intro x hx
            simp only at hx
            exact ⟨Nat.lt_succ_of_lt (hsaves x hx).1, (hsaves x hx).2⟩)
          (by
            intro hsv
            simpa using hnil hsv)
        refine ⟨by omega, by omega, hres.2.2.1, hres.2.2.2.1, hres.2.2.2.2.1,
          hres.2.2.2.2.2.1, hres.2.2.2.2.2.2⟩

/-- C5: every training loop (train_ltv_model, train_churn_model,
train_campaign_model share the same epoch loop) runs at most `epochs`
iterations, exits exactly when the validation loss has failed to
improve for 10 consecutive epochs (patSpec counts the consecutive
non-improving epochs just before an epoch), and the checkpoint at
save_path is written only when a save path is given and only on epochs
whose validation loss improves on every earlier one. -/
theorem training_loop_early_stops :
    ∀ (v : Nat → ℚ) (epochs : Nat) (save : Bool),
      (train_ltv_model v epochs save).epochs_run ≤ epochs
      ∧ (∀ x ∈ (train_ltv_model v epochs save).saved_epochs,
          save = true ∧ improvesB v x = true
            ∧ x < (train_ltv_model v epochs save).epochs_run)
      ∧ ((train_ltv_model v epochs save).stopped_early = true →
          patSpec v ((train_ltv_model v epochs save).epochs_run) = 10)
      ∧ (∀ k, k ≤ (train_ltv_model v epochs save).epochs_run → patSpec v k = 10 →
          k = (train_ltv_model v epochs save).epochs_run
          ∧ (train_ltv_model v epochs save).stopped_early = true)
      ∧ train_churn_model v epochs save = train_ltv_model v epochs save
      ∧ train_campaign_model v epochs save = train_ltv_model v epochs save := by
  intro v epochs save
  have hinv := trainFrom_invariant v save epochs 0 initTrainState rfl rfl rfl rfl
    (by
      intro k hk
      have : k = 0 := Nat.le_zero.mp hk
      rw [this]
      simp [patSpec])
    (by intro x hx; simp [initTrainState] at hx)
    (fun _ => rfl)
  have hdef : train_ltv_model v epochs save = trainFrom v save epochs 0 initTrainState := rfl
  rw [hdef]
  refine ⟨by have := hinv.1; omega, ?_, hinv.2.2.2.2.2.1, ?_, rfl, rfl⟩
  · intro x hx
    by_cases hsv : save = true
    · subst hsv
      exact ⟨rfl, (hinv.2.2.1 x hx).2, (hinv.2.2.1 x hx).1⟩
    · have hsf : save = false := Bool.eq_false_iff.mpr hsv
      rw [hinv.2.2.2.1 hsf] at hx
      simp at hx
  · intro k hk h10
    refine ⟨hinv.2.2.2.2.1 k hk h10, ?_⟩
    cases hst : (trainFrom v save epochs 0 initTrainState).stopped_early with
    | true => rfl
    | false =>
      exact absurd (h10 ▸ hinv.2.2.2.2.2.2 hst k hk) (lt_irrefl 10)

/-- C5 witness: on a constant validation loss, epoch 0 improves and
epochs 1..10 do not, so the loop stops after epoch 11 of the allowed
30 (hypotheses discharged by evaluation at k = 11). -/
theorem training_loop_early_stops_witness :
    11 = (train_ltv_model (fun _ => (1:ℚ)) 30 true).epochs_run
    ∧ (train_ltv_model (fun _ => (1:ℚ)) 30 true).stopped_early = true :=
  (training_loop_early_stops (fun _ => (1:ℚ)) 30 true).2.2.2.1 11
    (by decide) (by decide)

/-! ## C10 -/

/-- The user row with its uuid4-generated identifier blanked. -/
def stripUserId (r : UserRow) : UserRow :=
  { r with user_id := "" }

/-- The session row with its uuid4-generated identifier and the
uuid4-derived user reference blanked. -/
def stripSessionIds (s : SessionRow) : SessionRow :=
  { s with user_id := "", session_id := "" }

/-- The channel_profiles.py constants for the Meta channel (segment and
device splits of USER_SEGMENTS / DEVICE_DISTRIBUTIONS, geography from
GEO_DISTRIBUTIONS, monetization and churn from MONETIZATION_PROFILES
and CHURN_PROFILES). -/
def envMeta : GenEnv :=
  { num_campaigns := 15
  , power_user_p := 0.12
  , regular_p := 0.45
  , ios_p := 0.55
  , us_p := 0.40
  , uk_p := 0.12
  , ca_p := 0.08
  , au_p := 0.06
  , paying_rate := [("power_user", 0.35), ("regular", 0.08), ("casual", 0.01)]
  , avg_revenue := [("power_user", 45), ("regular", 15), ("casual", 5)]
  , churn_rate := [("power_user", 0.10), ("regular", 0.30), ("casual", 0.60)] }

lemma stripUserId_mkUserRow (env : GenEnv) (nr : Nat → ℚ) (u1 u2 : Nat → String)
    (k : Nat) (d : Int) :
    stripUserId (mkUserRow env nr u1 k d) = stripUserId (mkUserRow env nr u2 k d) := rfl

lemma genUsersAux_strip (env : GenEnv) (nr : Nat → ℚ) (u1 u2 : Nat → String)
    (start_date : Int) (users_per_day : Nat) :
    ∀ (dleft day base : Nat),
      (genUsersAux env nr u1 start_date users_per_day dleft day base).map stripUserId
        = (genUsersAux env nr u2 start_date users_per_day dleft day base).map stripUserId := by
  intro dleft
  induction dleft with
  | zero => intro day base; rfl
  | succ m ih =>
    intro day base
    simp only [genUsersAux, List.map_append, List.map_map]
    rw [ih (day + 1) (base + dailyUserCount nr users_per_day day)]
    have hfun : (stripUserId ∘ fun i =>
        mkUserRow env nr u1 (base + i) (start_date + (day : Int)))
        = (stripUserId ∘ fun i =>
            mkUserRow env nr u2 (base + i) (start_date + (day : Int))) := by
      funext i
      exact stripUserId_mkUserRow env nr u1 u2 (base + i) (start_date + (day : Int))
    rw [hfun]

lemma stripSessionIds_mkSessionRow (nr : Nat → ℚ) (u1 u2 : Nat → String)
    (k : Nat) (a b : UserRow) (hab : stripUserId a = stripUserId b) :
    stripSessionIds (mkSessionRow nr u1 k a)
      = stripSessionIds (mkSessionRow nr u2 k b) := by
  have hdate : a.install_date = b.install_date := by
    have h := congrArg UserRow.install_date hab
    simpa [stripUserId] using h
  have hpayer : a.is_payer = b.is_payer := by
    have h := congrArg UserRow.is_payer hab
    simpa [stripUserId] using h
  simp [stripSessionIds, mkSessionRow, hdate, hpayer]

lemma genSessionsAux_strip (nr : Nat → ℚ) (u1 u2 : Nat → String) :
    ∀ (users1 users2 : List UserRow),
      users1.map stripUserId = users2.map stripUserId →
      ∀ (u base : Nat),
        (genSessionsAux nr u1 users1 u base).map stripSessionIds
          = (genSessionsAux nr u2 users2 u base).map stripSessionIds := by
  intro users1
  induction users1 with
  | nil =>
    intro users2 h u base
    have h2 : users2 = [] := by
      cases users2 with
      | nil => rfl
      | cons b t => simp at h
    subst h2
    rfl
  | cons a t ih =>
    intro users2 h u base
    cases users2 with
    | nil => simp at h
    | cons b t2 =>
      simp only [List.map_cons, List.cons.injEq] at h
      simp only [genSessionsAux, List.map_append, List.map_map]
      rw [ih t2 h.2 (u + 1) (base + userSessionCount nr u)]
      have hfun : (stripSessionIds ∘ fun i => mkSessionRow nr u1 (base + i) a)
          = (stripSessionIds ∘ fun i => mkSessionRow nr u2 (base + i) b) := by
        funext i
        exact stripSessionIds_mkSessionRow nr u1 u2 (base + i) a b h.1
      rw [hfun]

/-- C10 counterexample: two runs with identical arguments and identical
seeded numpy/Faker streams, differing only in the OS entropy behind
uuid.uuid4(), produce different UserInstall rows (the user_id fields
differ), so seeding Faker and numpy with 42 does not make the generated
rows identical across runs. -/
theorem generation_uuid_nondeterminism_counterexample :
    generate_users_rows envMeta (fun _ => 1/2) (fun _ => "run1-uuid") 0 1 1
      ≠ generate_users_rows envMeta (fun _ => 1/2) (fun _ => "run2-uuid") 0 1 1 := by
  intro h
  have hids := congrArg (fun l => l.map (fun r : UserRow => r.user_id)) h
  have hcnt : dailyUserCount (fun _ => 1/2) 1 0 = 1 := by
    norm_num [dailyUserCount, uniformDraw, pyIntOf, pyTrunc]
  simp only [generate_users_rows, Nat.div_one, genUsersAux, hcnt,
    List.range_succ, List.range_zero, List.nil_append,
    List.map_cons, List.map_nil, List.map_append, List.append_nil,
    mkUserRow] at hids
  simp at hids

/-- C10 (amended): all draws taken from the seeded Faker/numpy stream
are identical across two runs with the same arguments on the same day,
so the generated user-install and session rows of the two runs agree on
every field except the identifiers produced by uuid.uuid4(): user_id of
UserInstall rows, and session_id together with the copied user_id of
UserSession rows. -/
theorem generation_deterministic_up_to_uuids :
    ∀ (env : GenEnv) (nr : Nat → ℚ) (u1 u2 : Nat → String) (start_date : Int)
      (days users_target : Nat),
      (generate_users_rows env nr u1 start_date days users_target).map stripUserId
        = (generate_users_rows env nr u2 start_date days users_target).map stripUserId
      ∧ (generate_sessions_rows nr u1
            (generate_users_rows env nr u1 start_date days users_target)).map stripSessionIds
          = (generate_sessions_rows nr u2
              (generate_users_rows env nr u2 start_date days users_target)).map stripSessionIds := by
  intro env nr u1 u2 start_date days users_target
  have husers := genUsersAux_strip env nr u1 u2 start_date (users_target / days) days 0 0
  exact ⟨husers, genSessionsAux_strip nr u1 u2 _ _ husers 0 0⟩

end Olive
